import Mathlib

/-!
Shallow embedding of the `society_sim` repository (domain entities and the
daily simulation engine) together with proofs about the claims of its
specification.

Python floats are modelled as rationals `ℚ`, Python ints as `Int` (or `Nat`
where the source guarantees non-negativity by construction).  Pydantic
constructors that can raise validation errors are modelled as functions into
`Except String _`; clamp-class field validators are pure functions
`ℚ → ℚ`; `model_copy(update=...)` (which performs no re-validation in
pydantic) is modelled as a plain record update.
-/

namespace SocietySim

/-- From `domain/enums.py`: the six economic sectors. -/
inductive Sector where
  | housing
  | food
  | technology
  | construction
  | healthcare
  | finance
  deriving DecidableEq, Repr, Fintype

/-- The members of the `Sector` enum, in declaration order. -/
def Sector.values : List Sector :=
  [.housing, .food, .technology, .construction, .healthcare, .finance]

/-- From `domain/enums.py`: the seven event types. -/
inductive EventType where
  | company_scandal
  | company_success
  | sector_crisis
  | sector_boom
  | party_scandal
  | party_success
  | policy_proposal
  deriving DecidableEq, Repr

/-- From `domain/enums.py`: the five ideological positions. -/
inductive IdeologicalBias where
  | left
  | center_left
  | center
  | center_right
  | right
  deriving DecidableEq, Repr

/-- From `domain/company.py`: the `Company` pydantic model's fields. -/
structure Company where
  id : String
  name : String
  sector : Sector
  base_quality : ℚ
  base_price_level : ℚ
  reputation : ℚ
  stock_price : ℚ
  cash : ℚ
  last_day_units_sold : Int
  last_day_revenue : ℚ
  deriving DecidableEq, Repr

/-- From `Company.validate_reputation_range`: clamp reputation to [0, 100]. -/
def Company.validate_reputation_range (v : ℚ) : ℚ :=
  if v < 0 then 0
  else if v > 100 then 100
  else v

/-- Constructing a `Company`: pydantic validates fields in declaration order;
`base_quality`/`base_price_level` are rejected outside [0,1]
(`validate_zero_to_one_range`), `reputation` is clamped, `stock_price ≤ 0` is
rejected (`validate_stock_price_positive`), `cash < 0` and negative sales
metrics are rejected by their `Field` bounds. -/
def mkCompany (id name : String) (sector : Sector)
    (base_quality base_price_level reputation stock_price cash : ℚ)
    (last_day_units_sold : Int) (last_day_revenue : ℚ) :
    Except String Company :=
  if base_quality < 0 ∨ base_quality > 1 then
    .error "El valor debe estar en el rango [0.0, 1.0]"
  else if base_price_level < 0 ∨ base_price_level > 1 then
    .error "El valor debe estar en el rango [0.0, 1.0]"
  else if stock_price ≤ 0 then
    .error "stock_price debe ser mayor que 0"
  else if cash < 0 then
    .error "cash: Input should be greater than or equal to 0"
  else if last_day_units_sold < 0 then
    .error "last_day_units_sold: Input should be greater than or equal to 0"
  else if last_day_revenue < 0 then
    .error "last_day_revenue: Input should be greater than or equal to 0"
  else
    .ok { id := id, name := name, sector := sector,
          base_quality := base_quality, base_price_level := base_price_level,
          reputation := Company.validate_reputation_range reputation,
          stock_price := stock_price, cash := cash,
          last_day_units_sold := last_day_units_sold,
          last_day_revenue := last_day_revenue }

/-- From `domain/party.py`: the `Party` pydantic model's fields. -/
structure Party where
  id : String
  name : String
  ideology : IdeologicalBias
  popularity : ℚ
  reputation : ℚ
  in_government : Bool
  deriving DecidableEq, Repr

/-- From `Party.validate_popularity_range`: clamp popularity to [0, 100]. -/
def Party.validate_popularity_range (v : ℚ) : ℚ :=
  if v < 0 then 0
  else if v > 100 then 100
  else v

/-- From `Party.validate_reputation_range`: clamp reputation to [0, 100]. -/
def Party.validate_reputation_range (v : ℚ) : ℚ :=
  if v < 0 then 0
  else if v > 100 then 100
  else v

/-- Constructing a `Party` never raises: its only numeric validators clamp. -/
def mkParty (id name : String) (ideology : IdeologicalBias)
    (popularity reputation : ℚ) (in_government : Bool) : Party :=
  { id := id, name := name, ideology := ideology,
    popularity := Party.validate_popularity_range popularity,
    reputation := Party.validate_reputation_range reputation,
    in_government := in_government }

/-- From `domain/citizen_segment.py`: the `CitizenSegment` model's fields.
(`total_wealth` is a computed field, `size * wealth_per_capita`; it is not
stored.) -/
structure CitizenSegment where
  id : String
  name : String
  size : Int
  wealth_per_capita : ℚ
  satisfaction : ℚ
  preferred_party_id : Option String
  ideological_bias : IdeologicalBias
  consumption_rate : ℚ
  deriving DecidableEq, Repr

/-- From `CitizenSegment.total_wealth`: `size * wealth_per_capita`. -/
def CitizenSegment.total_wealth (s : CitizenSegment) : ℚ :=
  s.size * s.wealth_per_capita

/-- From `CitizenSegment.validate_satisfaction_range`: clamp to [0, 100]. -/
def CitizenSegment.validate_satisfaction_range (v : ℚ) : ℚ :=
  if v < 0 then 0
  else if v > 100 then 100
  else v

/-- Constructing a `CitizenSegment`: `size ≤ 0` and `wealth_per_capita < 0`
are rejected, `satisfaction` is clamped, `consumption_rate` outside [0,1] is
rejected (`validate_consumption_rate_range`). -/
def mkCitizenSegment (id name : String) (size : Int)
    (wealth_per_capita satisfaction : ℚ) (preferred_party_id : Option String)
    (ideological_bias : IdeologicalBias) (consumption_rate : ℚ) :
    Except String CitizenSegment :=
  if size ≤ 0 then
    .error "size: Input should be greater than 0"
  else if wealth_per_capita < 0 then
    .error "wealth_per_capita: Input should be greater than or equal to 0"
  else if consumption_rate < 0 then
    .error "consumption_rate debe ser mayor o igual a 0"
  else if consumption_rate > 1 then
    .error "consumption_rate debe ser menor o igual a 1"
  else
    .ok { id := id, name := name, size := size,
          wealth_per_capita := wealth_per_capita,
          satisfaction := CitizenSegment.validate_satisfaction_range satisfaction,
          preferred_party_id := preferred_party_id,
          ideological_bias := ideological_bias,
          consumption_rate := consumption_rate }

/-- From `domain/policy.py`: the immutable `PolicyEffect` model. -/
structure PolicyEffect where
  target_sector : Option Sector
  price_modifier : ℚ
  tax_rate_delta : ℚ
  subsidy_amount : ℚ
  reputation_boost : ℚ
  deriving DecidableEq, Repr

/-- Constructing a `PolicyEffect`: `price_modifier ≤ 0` and
`subsidy_amount < 0` are rejected by their `Field` bounds. -/
def mkPolicyEffect (target_sector : Option Sector)
    (price_modifier tax_rate_delta subsidy_amount reputation_boost : ℚ) :
    Except String PolicyEffect :=
  if price_modifier ≤ 0 then
    .error "price_modifier: Input should be greater than 0"
  else if subsidy_amount < 0 then
    .error "subsidy_amount: Input should be greater than or equal to 0"
  else
    .ok { target_sector := target_sector, price_modifier := price_modifier,
          tax_rate_delta := tax_rate_delta, subsidy_amount := subsidy_amount,
          reputation_boost := reputation_boost }

/-- From `domain/policy.py`: the `Policy` pydantic model's fields. -/
structure Policy where
  id : String
  name : String
  description : String
  proposed_by_party_id : String
  effect : PolicyEffect
  duration_days : Int
  remaining_days : Int
  is_active : Bool
  deriving DecidableEq, Repr

/-- Constructing a `Policy`: `duration_days ≤ 0` rejected by its `Field`
bound, `remaining_days < 0` rejected (`validate_remaining_days_non_negative`),
then the model validator `validate_remaining_not_greater_than_duration`
rejects `remaining_days > duration_days`.  `is_active` is stored unchecked
(its pydantic default is `true`). -/
def mkPolicy (id name description proposed_by_party_id : String)
    (effect : PolicyEffect) (duration_days remaining_days : Int)
    (is_active : Bool) : Except String Policy :=
  if duration_days ≤ 0 then
    .error "duration_days: Input should be greater than 0"
  else if remaining_days < 0 then
    .error "remaining_days no puede ser negativo"
  else if remaining_days > duration_days then
    .error "remaining_days no puede ser mayor que duration_days"
  else
    .ok { id := id, name := name, description := description,
          proposed_by_party_id := proposed_by_party_id, effect := effect,
          duration_days := duration_days, remaining_days := remaining_days,
          is_active := is_active }

/-- From `Policy.tick`: `new_remaining = max(0, remaining_days - 1)`,
`new_is_active = new_remaining > 0`, returned through `model_copy` (which
re-validates nothing), all other fields untouched. -/
def Policy.tick (p : Policy) : Policy :=
  let new_remaining := max 0 (p.remaining_days - 1)
  let new_is_active := decide (new_remaining > 0)
  { p with remaining_days := new_remaining, is_active := new_is_active }

/-- From `domain/event.py`: the immutable `EventEffect` model. -/
structure EventEffect where
  reputation_delta : ℚ
  popularity_delta : ℚ
  stock_price_delta_percent : ℚ
  satisfaction_delta : ℚ
  deriving DecidableEq, Repr

/-- From `domain/event.py`: the immutable `Event` model. -/
structure Event where
  id : String
  day : Int
  event_type : EventType
  narrative : String
  target_company_ids : List String
  target_party_ids : List String
  target_sectors : List Sector
  effect : EventEffect
  deriving DecidableEq, Repr

/-- From `domain/summary.py`: the immutable `PartySummary` model. -/
structure PartySummary where
  party_id : String
  name : String
  popularity : ℚ
  reputation : ℚ
  deriving DecidableEq, Repr

/-- From `domain/summary.py`: the immutable `CompanySummary` model. -/
structure CompanySummary where
  company_id : String
  name : String
  stock_price : ℚ
  reputation : ℚ
  revenue : ℚ
  deriving DecidableEq, Repr

/-- From `domain/summary.py`: the immutable `DaySummary` model. -/
structure DaySummary where
  day : Int
  total_revenue : ℚ
  average_stock_price : ℚ
  average_satisfaction : ℚ
  parties : List PartySummary
  top_companies : List CompanySummary
  events_count : Int
  active_policies_count : Int
  deriving DecidableEq, Repr

/-- From `domain/world_state.py`: the `WorldState` pydantic model's fields. -/
structure WorldState where
  day : Int
  companies : List Company
  parties : List Party
  citizen_segments : List CitizenSegment
  active_policies : List Policy
  events_today : List Event
  history : List DaySummary
  deriving DecidableEq, Repr

/-- Constructing a `WorldState`: the `day` field's `ge=0` bound is checked
first, then `validate_minimum_entities` requires at least one company, one
party and one citizen segment, raising in that order. -/
def mkWorldState (day : Int) (companies : List Company) (parties : List Party)
    (citizen_segments : List CitizenSegment) (active_policies : List Policy)
    (events_today : List Event) (history : List DaySummary) :
    Except String WorldState :=
  if day < 0 then
    .error "day: Input should be greater than or equal to 0"
  else if companies.length < 1 then
    .error "WorldState requiere al menos 1 empresa"
  else if parties.length < 1 then
    .error "WorldState requiere al menos 1 partido político"
  else if citizen_segments.length < 1 then
    .error "WorldState requiere al menos 1 segmento ciudadano"
  else
    .ok { day := day, companies := companies, parties := parties,
          citizen_segments := citizen_segments,
          active_policies := active_policies, events_today := events_today,
          history := history }

/-- From `WorldState.get_company_by_id`: linear scan, `none` when missing. -/
def WorldState.get_company_by_id (w : WorldState) (company_id : String) :
    Option Company :=
  w.companies.find? (fun c => c.id == company_id)

/-- From `WorldState.get_party_by_id`: linear scan, `none` when missing. -/
def WorldState.get_party_by_id (w : WorldState) (party_id : String) :
    Option Party :=
  w.parties.find? (fun p => p.id == party_id)

/-- From `WorldState.get_segment_by_id`: linear scan, `none` when missing. -/
def WorldState.get_segment_by_id (w : WorldState) (segment_id : String) :
    Option CitizenSegment :=
  w.citizen_segments.find? (fun s => s.id == segment_id)

/-- From `WorldState.get_companies_by_sector`: order-preserving filter. -/
def WorldState.get_companies_by_sector (w : WorldState) (sector : Sector) :
    List Company :=
  w.companies.filter (fun c => c.sector == sector)

/-- The container invariants of `WorldState` (checked by construction:
`day ≥ 0` via its `Field` bound and `validate_minimum_entities`). -/
def WorldState.isValid (w : WorldState) : Prop :=
  0 ≤ w.day ∧ 1 ≤ w.companies.length ∧ 1 ≤ w.parties.length ∧
    1 ≤ w.citizen_segments.length

instance (w : WorldState) : Decidable w.isValid := by
  unfold WorldState.isValid
  infer_instance

/-! ## The daily pipeline, from `engine/run_day.py`.

Every phase uses `model_copy(update=...)`, which in pydantic performs no
re-validation, so the phases are total functions `WorldState → WorldState`. -/

/-- Phase 1 (`_generate_events_phase`): stub that clears `events_today`. -/
def generate_events_phase (world : WorldState) : WorldState :=
  { world with events_today := [] }

/-- Phase 2 (`_apply_events_phase`): stub, identity. -/
def apply_events_phase (world : WorldState) : WorldState :=
  world

/-- Phase 3 (`_apply_policies_phase`): stub, identity. -/
def apply_policies_phase (world : WorldState) : WorldState :=
  world

/-- Phase 4 (`_simulate_market_phase`): stub, identity. -/
def simulate_market_phase (world : WorldState) : WorldState :=
  world

/-- Phase 5 (`_update_entities_phase`): stub, identity. -/
def update_entities_phase (world : WorldState) : WorldState :=
  world

/-- Phase 6 (`_record_summary_phase`): stub, identity — it does NOT append a
`DaySummary` to `history` (its docstring marks the implementation as pending
US-2.2, and `tests/engine/test_summary_phase.py` asserts the intended
appending behaviour). -/
def record_summary_phase (world : WorldState) : WorldState :=
  world

/-- From `run_day`: the six phases in order, then `day` incremented by one
through `model_copy`. -/
def run_day (world : WorldState) : WorldState :=
  let w1 := generate_events_phase world
  let w2 := apply_events_phase w1
  let w3 := apply_policies_phase w2
  let w4 := simulate_market_phase w3
  let w5 := update_entities_phase w4
  let w6 := record_summary_phase w5
  { w6 with day := w6.day + 1 }

/-! ## The initial-world factory, from `domain/factory.py`. -/

/-- From `_create_initial_companies`: 8 companies over the 6 sectors
(sales-metric fields take their pydantic defaults `0`). -/
def create_initial_companies : Except String (List Company) := do
  let c1 ← mkCompany "housing-001" "InmoHogar" .housing (mkRat 7 10) (mkRat 6 10)
    55 120 2000000 0 0
  let c2 ← mkCompany "food-001" "AlimentosFrescos" .food (mkRat 8 10) (mkRat 4 10)
    60 80 1500000 0 0
  let c3 ← mkCompany "food-002" "SuperEconómico" .food (mkRat 5 10) (mkRat 2 10)
    45 50 800000 0 0
  let c4 ← mkCompany "tech-001" "TechInnovadora" .technology (mkRat 9 10) (mkRat 8 10)
    70 200 5000000 0 0
  let c5 ← mkCompany "tech-002" "SoftwareSoluciones" .technology (mkRat 7 10) (mkRat 5 10)
    50 90 1200000 0 0
  let c6 ← mkCompany "const-001" "ConstruyeMás" .construction (mkRat 6 10) (mkRat 5 10)
    48 75 1800000 0 0
  let c7 ← mkCompany "health-001" "SaludTotal" .healthcare (mkRat 85 100) (mkRat 7 10)
    65 150 3000000 0 0
  let c8 ← mkCompany "finance-001" "BancoSeguro" .finance (mkRat 75 100) (mkRat 6 10)
    55 180 10000000 0 0
  return [c1, c2, c3, c4, c5, c6, c7, c8]

/-- From `_create_initial_parties`: 4 parties, the centre-left one in
government. -/
def create_initial_parties : List Party :=
  [ mkParty "party-left" "Partido Progresista" .left 22 52 false,
    mkParty "party-center-left" "Partido Socialdemócrata" .center_left
      28 55 true,
    mkParty "party-center-right" "Partido Liberal" .center_right
      25 50 false,
    mkParty "party-right" "Partido Conservador" .right 20 48 false ]

/-- From `_create_initial_citizen_segments`: 4 socio-economic segments. -/
def create_initial_citizen_segments : Except String (List CitizenSegment) := do
  let s1 ← mkCitizenSegment "seg-upper" "Clase Alta" 500000 200000 70
    (some "party-center-right") .center_right (mkRat 15 100)
  let s2 ← mkCitizenSegment "seg-middle" "Clase Media" 3000000 50000 55
    (some "party-center-left") .center (mkRat 10 100)
  let s3 ← mkCitizenSegment "seg-working" "Clase Trabajadora" 5000000 20000 45
    (some "party-center-left") .center_left (mkRat 8 100)
  let s4 ← mkCitizenSegment "seg-precarious" "Desempleados y Precarios"
    1500000 5000 30 (some "party-left") .left (mkRat 5 100)
  return [s1, s2, s3, s4]

/-- From `create_initial_world`: day 0, the seed entities, empty policies,
events and history. -/
def create_initial_world : Except String WorldState := do
  let companies ← create_initial_companies
  let segments ← create_initial_citizen_segments
  mkWorldState 0 companies create_initial_parties segments [] [] []

/-! ## Sample world, mirroring the `minimal_world` fixture of
`tests/engine/test_run_day.py` (default dynamic fields). -/

def sampleCompany : Company :=
  { id := "test-company", name := "Test Corp", sector := .technology,
    base_quality := mkRat 7 10, base_price_level := mkRat 5 10,
    reputation := 50, stock_price := 100, cash := 1000000,
    last_day_units_sold := 0, last_day_revenue := 0 }

def sampleParty : Party :=
  { id := "test-party", name := "Test Party", ideology := .center,
    popularity := 20, reputation := 50, in_government := false }

def sampleSegment : CitizenSegment :=
  { id := "test-segment", name := "Test Segment", size := 1000,
    wealth_per_capita := 10000, satisfaction := 50,
    preferred_party_id := none, ideological_bias := .center,
    consumption_rate := mkRat 1 10 }

def sampleWorld : WorldState :=
  { day := 0, companies := [sampleCompany], parties := [sampleParty],
    citizen_segments := [sampleSegment], active_policies := [],
    events_today := [], history := [] }

/-! ## Theorems about the claims. -/

/-- Claim C1.  The claim states that `run_day` appends exactly one
`DaySummary` to `history`, stamped with the pre-increment day.  The code's
`_record_summary_phase` is an identity stub, so `run_day` leaves `history`
unchanged: starting from `create_initial_world()` (history length 0), the
history after `run_day` still has length 0, not 1.  The repository's own
tests (`tests/engine/test_summary_phase.py`) assert the claimed appending
behaviour, so the code contradicts its own test suite here. -/
theorem claim1_run_day_leaves_history_unchanged :
    (∀ w : WorldState, (run_day w).history = w.history) ∧
      create_initial_world.toOption.map
        (fun w => ((run_day w).history.length, w.history.length)) =
        some (0, 0) :=
  ⟨fun _ => rfl, by decide⟩

/-- Claim C2.  `run_day` increments the day counter by exactly one, and
iterating it `n` times from `create_initial_world()` yields a state whose
`day` equals `n`. -/
theorem claim2_run_day_increments_day :
    (∀ w : WorldState, (run_day w).day = w.day + 1) ∧
      ∀ n : ℕ, create_initial_world.toOption.map
        (fun w => (run_day^[n] w).day) = some (n : ℤ) := by
  have key : ∀ (w : WorldState) (n : ℕ), (run_day^[n] w).day = w.day + n := by
    intro w n
    induction n with
    | zero =>
        rw [Function.iterate_zero_apply]
        push_cast
        ring
    | succ n ih =>
        rw [Function.iterate_succ_apply']
        show (run_day^[n] w).day + 1 = w.day + (n + 1 : ℕ)
        rw [ih]
        push_cast
        ring
  refine ⟨fun _ => rfl, fun n => ?_⟩
  have day0 : create_initial_world.toOption.map (fun w => w.day) = some 0 := by
    decide
  rcases h : create_initial_world.toOption with _ | w
  · rw [h] at day0
    simp at day0
  · rw [h] at day0
    simp only [Option.map_some'] at day0 ⊢
    rw [Option.some.injEq] at day0
    rw [key w n, day0, Option.some.injEq]
    simp

/-- Claim C3.  `run_day` is a total function (every phase goes through
`model_copy`, which re-validates nothing, so nothing can raise), and it
preserves the container invariants: at least one company, one party and one
citizen segment, and a non-negative day counter. -/
theorem claim3_run_day_preserves_validity (w : WorldState)
    (h : w.isValid) : (run_day w).isValid := by
  obtain ⟨hd, hc, hp, hs⟩ := h
  refine ⟨?_, hc, hp, hs⟩
  show (0 : ℤ) ≤ w.day + 1
  omega

/-- Witness for claim C3 at the minimal test world. -/
theorem claim3_witness :
    sampleWorld.isValid ∧ (run_day sampleWorld).isValid :=
  ⟨by decide, claim3_run_day_preserves_validity sampleWorld (by decide)⟩

/-- Claim C4.  `Policy.tick` decrements `remaining_days` by one floored at
zero, sets `is_active` to whether the new `remaining_days` is positive,
leaves every other field unchanged, and is idempotent on policies whose
`remaining_days` is zero. -/
theorem claim4_policy_tick (p : Policy) :
    p.tick.remaining_days = max 0 (p.remaining_days - 1) ∧
      p.tick.is_active = decide (p.tick.remaining_days > 0) ∧
      p.tick.id = p.id ∧ p.tick.name = p.name ∧
      p.tick.description = p.description ∧
      p.tick.proposed_by_party_id = p.proposed_by_party_id ∧
      p.tick.effect = p.effect ∧ p.tick.duration_days = p.duration_days ∧
      Policy.tick (Policy.tick { p with remaining_days := 0 }) =
        Policy.tick { p with remaining_days := 0 } := by
  refine ⟨rfl, rfl, rfl, rfl, rfl, rfl, rfl, rfl, ?_⟩
  simp [Policy.tick]

/-- Claim C5.  The clamp-class fields — `Company.reputation`,
`Party.popularity`, `Party.reputation`, `CitizenSegment.satisfaction` —
store 0 for inputs below 0, 100 for inputs above 100, and the input itself
inside [0, 100]; construction never fails on their account (here with the
other fields held at valid values). -/
theorem claim5_clamp_fields (v : ℚ) :
    (mkCompany "c" "C" .technology (mkRat 7 10) (mkRat 5 10) v 100
        1000000 0 0).toOption.map (fun c => c.reputation) =
      some (if v < 0 then 0 else if v > 100 then 100 else v) ∧
    (mkParty "p" "P" .center v 50 false).popularity =
      (if v < 0 then 0 else if v > 100 then 100 else v) ∧
    (mkParty "p" "P" .center 20 v false).reputation =
      (if v < 0 then 0 else if v > 100 then 100 else v) ∧
    (mkCitizenSegment "s" "S" 1000 10000 v none .center
        (mkRat 1 10)).toOption.map (fun s => s.satisfaction) =
      some (if v < 0 then 0 else if v > 100 then 100 else v) := by
  refine ⟨?_, rfl, rfl, ?_⟩
  · unfold mkCompany
    rw [if_neg (by decide), if_neg (by decide), if_neg (by decide),
      if_neg (by decide), if_neg (by decide), if_neg (by decide)]
    rfl
  · unfold mkCitizenSegment
    rw [if_neg (by decide), if_neg (by decide), if_neg (by decide),
      if_neg (by decide)]
    rfl

/-- Claim C6.  The reject-class fields: constructing a `CitizenSegment`
succeeds exactly when `consumption_rate` lies in [0, 1], and constructing a
`Company` succeeds exactly when `stock_price` is positive (the other fields
held at valid values); outside those ranges construction returns a
validation error. -/
theorem claim6_reject_fields (v : ℚ) :
    (mkCitizenSegment "s" "S" 1000 10000 50 none .center v).isOk =
      (decide (0 ≤ v) && decide (v ≤ 1)) ∧
    (mkCompany "c" "C" .technology (mkRat 7 10) (mkRat 5 10) 50 v
        1000000 0 0).isOk = decide (0 < v) := by
  constructor
  · unfold mkCitizenSegment
    rw [if_neg (by decide), if_neg (by decide)]
    split_ifs with h1 h2 <;> simp_all [Except.isOk, Except.toBool]
  · unfold mkCompany
    rw [if_neg (by decide), if_neg (by decide)]
    split_ifs with h1 <;> simp_all [Except.isOk, Except.toBool]
    linarith

/-- Claim C7.  `run_day` preserves the identity lists (hence the identity
sets and the counts) of companies, parties and citizen segments: no entity
is created or destroyed by the pipeline. -/
theorem claim7_run_day_preserves_entities (w : WorldState) :
    (run_day w).companies.map (fun c => c.id) =
        w.companies.map (fun c => c.id) ∧
      (run_day w).parties.map (fun p => p.id) =
        w.parties.map (fun p => p.id) ∧
      (run_day w).citizen_segments.map (fun s => s.id) =
        w.citizen_segments.map (fun s => s.id) ∧
      (run_day w).companies.length = w.companies.length ∧
      (run_day w).parties.length = w.parties.length ∧
      (run_day w).citizen_segments.length = w.citizen_segments.length :=
  ⟨rfl, rfl, rfl, rfl, rfl, rfl⟩

/-- Claim C8.  Constructing a `WorldState` with an empty companies, parties
or citizen-segments list fails with a validation error naming the missing
entity type, and succeeds whenever all three lists are non-empty and the day
is non-negative. -/
theorem claim8_world_state_minimum_entities :
    (∀ (d : ℕ) ps ss pol ev h,
        mkWorldState d [] ps ss pol ev h =
          .error "WorldState requiere al menos 1 empresa") ∧
      (∀ (d : ℕ) c cs ss pol ev h,
        mkWorldState d (c :: cs) [] ss pol ev h =
          .error "WorldState requiere al menos 1 partido político") ∧
      (∀ (d : ℕ) c cs p ps pol ev h,
        mkWorldState d (c :: cs) (p :: ps) [] pol ev h =
          .error "WorldState requiere al menos 1 segmento ciudadano") ∧
      ∀ (d : ℕ) c cs p ps s ss pol ev h,
        (mkWorldState d (c :: cs) (p :: ps) (s :: ss) pol ev h).isOk =
          true := by
  refine ⟨?_, ?_, ?_, ?_⟩ <;> intros
  · unfold mkWorldState
    rw [if_neg (by omega), if_pos (by simp)]
  · unfold mkWorldState
    rw [if_neg (by omega), if_neg (by simp), if_pos (by simp)]
  · unfold mkWorldState
    rw [if_neg (by omega), if_neg (by simp), if_neg (by simp),
      if_pos (by simp)]
  · unfold mkWorldState
    rw [if_neg (by omega), if_neg (by simp), if_neg (by simp),
      if_neg (by simp)]
    rfl

/-- Claim C9.  `create_initial_world()` succeeds and yields a world at day 0
with empty history, events and policies, whose companies cover all six
sectors, with exactly one party in government, and in which every citizen
segment's preferred party (when present) is the id of an existing party. -/
theorem claim9_create_initial_world :
    create_initial_world.toOption.map (fun w =>
      (w.day, w.history.length, w.events_today.length,
       w.active_policies.length,
       Sector.values.all (fun s => w.companies.any (fun c => c.sector == s)),
       (w.parties.filter (fun p => p.in_government)).length,
       w.citizen_segments.all (fun seg =>
         match seg.preferred_party_id with
         | none => true
         | some pid => w.parties.any (fun p => p.id == pid)))) =
      some (0, 0, 0, 0, true, 1, true) := by
  rfl

/-- Claim C10.  `Policy` construction does not relate `is_active` to
`remaining_days`: a policy with `remaining_days = 0` and `is_active = true`
(the pydantic default) is constructed without error. -/
theorem claim10_policy_active_unchecked :
    ((mkPolicyEffect none 1 0 0 0).bind (fun e =>
        mkPolicy "pol-001" "Test" "Test policy" "party-001" e 5 0
          true)).toOption.map (fun p => (p.remaining_days, p.is_active)) =
      some (0, true) := by
  decide

end SocietySim
